import Mathlib

/-!
Shallow embedding of the `vipsprocessor` package of mrsool/mrsool-imagor
(the thumbnail / crop / frame-resolution decision logic), together with
theorems checking the natural-language specification against it.

The collaborator image library (libvips via cshum/vipsgen) is external to the
repository: its primitives (`ThumbnailImage`, `ExtractAreaMultiPage`, image
loading) appear here either as abstract function parameters or as fields read
from an image value.  Go `float64` arithmetic in the source is embedded as
exact rational (`ℚ`) arithmetic; Go `int` as `Int` with Go's
truncated (toward-zero) division `Int.div`.
-/

namespace Vipsprocessor

/-- `vips.Interesting` crop policy enum (vipsgen). -/
inductive Interesting where
  | none
  | centre
  | entropy
  | attention
  | low
  | high
  | all
  deriving DecidableEq, Repr

/-- `vips.Size` resize policy enum (vipsgen). -/
inductive Size where
  | both
  | up
  | down
  | force
  deriving DecidableEq, Repr

/-- `imagor.BlobType` of a source blob (only the cases the processor
distinguishes). -/
inductive BlobType where
  | jpeg
  | png
  | gif
  | webp
  | pdf
  | memory
  | other
  deriving DecidableEq, Repr

/-- The part of an `imagor.Blob` the thumbnail pipeline reads. -/
structure Blob where
  blobType : BlobType
  supportsAnimation : Bool
  deriving DecidableEq, Repr

/-- Metadata of a decoded `vips.Image` handle: `Width`, `Height`,
`PageHeight`, `Pages`, `Orientation` accessors. -/
structure VImage where
  width : Int
  height : Int
  pageHeight : Int
  pages : Int
  orientation : Int
  deriving DecidableEq, Repr

/-- The configuration fields of `vipsprocessor.Processor` that the claims
touch, with the defaults set by `NewProcessor`. -/
structure Processor where
  maxWidth : Int := 9999
  maxHeight : Int := 9999
  maxResolution : Int := 81000000
  unlimited : Bool := false
  deriving DecidableEq, Repr

/-- Classified `imagor.Error` values (`imagor.ErrNotFound`,
`imagor.ErrUnsupportedFormat`, `imagor.ErrMaxResolutionExceeded`,
`imagor.ErrExpired`, `imagor.ErrInvalid`, and `imagor.NewError msg status`). -/
inductive ImagorError where
  | notFound
  | unsupportedFormat
  | maxResolutionExceeded
  | expired
  | invalid
  | newError (msg : List Char) (status : Int)
  deriving DecidableEq, Repr

/-- A Go `error` value reaching `WrapErr`: either already a classified
`imagor.Error` (the `err.(imagor.Error)` type switch succeeds) or a raw
error carrying only its `Error()` message.  Go strings are embedded as
`List Char`. -/
inductive GoError where
  | imagorError (e : ImagorError)
  | raw (msg : List Char)
  deriving DecidableEq, Repr

/-- `vips.LoadOptions` fields the processor sets (`Dpi`, `Unlimited`,
`Page`, `N`); Go zero values as defaults. -/
structure LoadOptions where
  dpi : Int := 0
  unlimited : Bool := false
  page : Int := 0
  n : Int := 0
  deriving DecidableEq, Repr

/-- Result of `WrapErr`: the returned error plus whether the error was
reported to the external diagnostics sink (`sentry.CaptureException`),
which in Go is a side effect of the call. -/
structure WrapResult where
  err : Option GoError
  sentryReported : Bool
  deriving DecidableEq, Repr

/-- Go's `unicode.IsSpace` restricted to the Latin-1 range (the whitespace
characters that can occur in libvips error messages). -/
def goIsSpace (c : Char) : Bool :=
  c == ' ' || c == '\t' || c == '\n' || c.val == 11 || c.val == 12 || c == '\r' ||
    c.val == 0x85 || c.val == 0xA0

/-- Go's `strings.TrimSpace`: drop leading and trailing whitespace. -/
def trimSpace (s : List Char) : List Char :=
  ((s.dropWhile goIsSpace).reverse.dropWhile goIsSpace).reverse

/-- `WrapErr` (processor.go): nil passes through; an `imagor.Error` is
returned as-is; a raw error whose trimmed message starts with
`VipsForeignLoad:` and ends with `is not in a known format` becomes
`imagor.ErrUnsupportedFormat`; every other raw error is reported to sentry
and wrapped as `imagor.NewError(trimmedMsg, 406)`. -/
def WrapErr : Option GoError → WrapResult
  | Option.none => ⟨Option.none, false⟩
  | Option.some (GoError.imagorError e) => ⟨Option.some (GoError.imagorError e), false⟩
  | Option.some (GoError.raw m) =>
    let msg := trimSpace m
    if "VipsForeignLoad:".toList.isPrefixOf msg &&
        "is not in a known format".toList.isSuffixOf msg then
      ⟨Option.some (GoError.imagorError ImagorError.unsupportedFormat), false⟩
    else
      ⟨Option.some (GoError.imagorError (ImagorError.newError msg 406)), true⟩

/-- Result of `CheckResolution`: the returned `(image, error)` pair plus
whether the handle passed in was closed by the check. -/
structure CheckResult where
  img : Option VImage
  err : Option GoError
  closed : Bool
  deriving DecidableEq, Repr

/-- `CheckResolution` (processor.go): passes `(img, err)` through when
`err != nil` or `img == nil`; otherwise, unless `Unlimited` is set, closes
the image and fails with `imagor.ErrMaxResolutionExceeded` when
`width > MaxWidth`, or `pageHeight > MaxHeight`, or
`width * height > MaxResolution`. -/
def CheckResolution (v : Processor) (img : Option VImage) (err : Option GoError) :
    CheckResult :=
  match img, err with
  | _, Option.some e => ⟨img, Option.some e, false⟩
  | Option.none, Option.none => ⟨Option.none, Option.none, false⟩
  | Option.some i, Option.none =>
    if !v.unlimited && (i.width > v.maxWidth || i.pageHeight > v.maxHeight ||
        i.width * i.height > v.maxResolution) then
      ⟨Option.none, Option.some (GoError.imagorError ImagorError.maxResolutionExceeded), true⟩
    else
      ⟨Option.some i, Option.none, false⟩

/-- `isMultiPage` (processor.go): the blob is non-nil, supports animation or
is a PDF, and the caller requested a frame subset (`n` not 0/1 or `page`
not 0/1). -/
def isMultiPage (blob : Option Blob) (n page : Int) : Bool :=
  match blob with
  | Option.none => false
  | Option.some b =>
    (b.supportsAnimation || b.blobType == BlobType.pdf) &&
      ((n != 1 && n != 0) || (page != 1 && page != 0))

/-- `applyMultiPageOptions` (processor.go): `page < -1` sets an absolute
page index `-page-1`; else `n < -1` sets a frame count `-n`; else requests
all frames (`N = -1`). -/
def applyMultiPageOptions (params : LoadOptions) (n page : Int) : LoadOptions :=
  if page < -1 then { params with page := -page - 1 }
  else if n < -1 then { params with n := -n }
  else { params with n := -1 }

/-- Result of `recalculateImage`: the corrected `(n, page)` pair plus the
fact that the decoded handle it read the page count from was closed. -/
structure RecalcResult where
  n : Int
  page : Int
  imgClosed : Bool
  deriving DecidableEq, Repr

/-- `recalculateImage` (processor.go): reads `img.Pages()`, closes the
handle, then clamps `page` down to the page count when `page > 1` exceeds
it, else clamps `n` likewise. -/
def recalculateImage (img : VImage) (n page : Int) : RecalcResult :=
  let numPages := img.pages
  if page > 1 ∧ page > numPages then ⟨n, numPages, true⟩
  else if n > 1 ∧ n > numPages then ⟨numPages, page, true⟩
  else ⟨n, page, true⟩

/-- `vips.ThumbnailImageOptions` fields the processor sets, with Go zero
values (`SizeBoth`, `InterestingNone`) as defaults. -/
structure ThumbnailImageOptions where
  height : Int := 0
  size : Size := Size.both
  crop : Interesting := Interesting.none
  deriving DecidableEq, Repr

/-- One call of the collaborator primitive `img.ThumbnailImage(width, opts)`:
the target width together with the option structure passed. -/
structure ThumbCall where
  width : Int
  options : ThumbnailImageOptions
  deriving DecidableEq, Repr

/-- The collaborator thumbnail primitive, abstracted: given the requested
width, the options, and the current image, it yields the resized image. -/
def ThumbPrim : Type := Int → ThumbnailImageOptions → VImage → VImage

/-- Go `int(f)` conversion of a `float64` (embedded as `ℚ`): truncation
toward zero. -/
def truncQ (q : ℚ) : Int := Int.tdiv q.num q.den

/-- Model of the collaborator primitive `ExtractAreaMultiPage`: the `w × h`
rectangle is extracted from every page and the pages rejoined, so the result
has width `w`, page-height `h`, the same page count and orientation, and
total height `h * pages`. -/
def ExtractAreaMultiPage (img : VImage) (_left _top w h : Int) : VImage :=
  ⟨w, h * img.pages, h, img.pages, img.orientation⟩

/-- What `animatedThumbnailWithCrop` did: either the `SizeDown` early return
(image untouched, nil error), or one thumbnail-resize call followed by an
`ExtractAreaMultiPage` with the recorded rectangle. -/
inductive CropOutcome where
  | unmodified
  | extracted (call : ThumbCall) (resized : VImage) (left top w h : Int)
  deriving DecidableEq, Repr

/-- `animatedThumbnailWithCrop` (processor.go): early return when
`SizeDown` and the source is smaller than the target in both dimensions;
otherwise resize scaling by width when `w/h > width/pageHeight` (as Go
`float64` division, embedded exactly) with the height capped at
`MaxHeight`, else by height with the width capped at `MaxWidth`, both with
`Crop: none`; then extract at the `left/top` computed from the crop policy
(zero for policies other than high/centre/attention). -/
def animatedThumbnailWithCrop (v : Processor) (thumb : ThumbPrim)
    (img : VImage) (w h : Int) (crop : Interesting) (size : Size) : CropOutcome :=
  if size = Size.down ∧ img.width < w ∧ img.pageHeight < h then
    CropOutcome.unmodified
  else
    let call : ThumbCall :=
      if (w : ℚ) / (h : ℚ) > (img.width : ℚ) / (img.pageHeight : ℚ) then
        ⟨w, { height := v.maxHeight, crop := Interesting.none, size := size }⟩
      else
        ⟨v.maxWidth, { height := h, crop := Interesting.none, size := size }⟩
    let img2 := thumb call.width call.options img
    let lt : Int × Int :=
      if crop = Interesting.high then
        (img2.width - w, img2.pageHeight - h)
      else if crop = Interesting.centre ∨ crop = Interesting.attention then
        (Int.tdiv (img2.width - w) 2, Int.tdiv (img2.pageHeight - h) 2)
      else (0, 0)
    CropOutcome.extracted call img2 lt.1 lt.2 w h

/-- What `FocalThumbnail` did: the thumbnail call chosen, the resized image,
the clamped integer rectangle passed to `ExtractAreaMultiPage`, and the
extracted result. -/
structure FocalOutcome where
  call : ThumbCall
  resized : VImage
  left : Int
  top : Int
  w : Int
  h : Int
  result : VImage
  deriving DecidableEq, Repr

/-- `FocalThumbnail` (processor.go): for orientation codes > 4 the aspect
comparison uses page-height as width and width as height (display-oriented
extents); resize scaling by width when `w/h` exceeds that aspect (height
capped at `MaxHeight`) else by height (width capped at `MaxWidth`), with
`Crop: none`; then `left = width*fx - w/2` and `top = pageHeight*fy - h/2`
of the resized image, clamped by `max 0 (min · (dim - target))`, truncated
to `int`, and extracted page-aware. -/
def FocalThumbnail (v : Processor) (thumb : ThumbPrim) (img : VImage)
    (w h : Int) (fx fy : ℚ) : FocalOutcome :=
  let imageWidth : ℚ := if img.orientation > 4 then (img.pageHeight : ℚ) else (img.width : ℚ)
  let imageHeight : ℚ := if img.orientation > 4 then (img.width : ℚ) else (img.pageHeight : ℚ)
  let call : ThumbCall :=
    if (w : ℚ) / (h : ℚ) > imageWidth / imageHeight then
      ⟨w, { height := v.maxHeight, crop := Interesting.none }⟩
    else
      ⟨v.maxWidth, { height := h, crop := Interesting.none }⟩
  let img2 := thumb call.width call.options img
  let left0 : ℚ := (img2.width : ℚ) * fx - (w : ℚ) / 2
  let top0 : ℚ := (img2.pageHeight : ℚ) * fy - (h : ℚ) / 2
  let li : Int := truncQ (max 0 (min left0 ((img2.width : ℚ) - (w : ℚ))))
  let ti : Int := truncQ (max 0 (min top0 ((img2.pageHeight : ℚ) - (h : ℚ))))
  ⟨call, img2, li, ti, w, h, ExtractAreaMultiPage img2 li ti w h⟩

/-- An ideal scale-to-fit model of the collaborator thumbnail primitive with
`Crop: none`: the scale factor `min (targetW/width) (height/pageHeight)`,
capped at 1 when `Size: down`, applied to every page with floor rounding.
Used only to instantiate theorems at concrete inputs. -/
def fitThumb (width : Int) (opts : ThumbnailImageOptions) (img : VImage) : VImage :=
  let s0 : ℚ := min ((width : ℚ) / (img.width : ℚ)) ((opts.height : ℚ) / (img.pageHeight : ℚ))
  let s : ℚ := if opts.size = Size.down then min 1 s0 else s0
  let w2 : Int := ⌊(img.width : ℚ) * s⌋
  let ph2 : Int := ⌊(img.pageHeight : ℚ) * s⌋
  ⟨w2, ph2 * img.pages, ph2, img.pages, img.orientation⟩

/-- Recursion skeleton of `NewThumbnail` (processor.go): the list of
`(n, page)` arguments of the successive invocations of the pipeline for one
request.  The external image load is abstracted as `decode` (the image a
load with the given options yields, `Option.none` for a failed decode,
which makes `NewThumbnail` return a wrapped error with no retry).  In the
`crop = none ∨ size = force` sub-branch the reload check precedes the
resolution check; in the other sub-branch a `CheckResolution` failure
returns before any reload.  Paths that cannot recurse (single-page sources,
in-range indices) are truncated to their call entry, since the claims this
settles concern only the recursion.  `Option.none` overall means the
recursion did not settle within `fuel` invocations. -/
def NewThumbnailCalls (v : Processor) (blob : Option Blob)
    (decode : LoadOptions → Option VImage) (crop : Interesting) (size : Size)
    (dpi : Int) : Nat → Int → Int → Option (List (Int × Int))
  | 0, _, _ => Option.none
  | Nat.succ fuel, n, page =>
    let options0 : LoadOptions :=
      { dpi := if dpi > 0 then dpi else 0, unlimited := v.unlimited }
    if isMultiPage blob n page then
      let options := applyMultiPageOptions options0 n page
      if crop = Interesting.none ∨ size = Size.force then
        match decode options with
        | Option.none => Option.some [(n, page)]
        | Option.some img =>
          if n > 1 ∨ page > 1 then
            let r := recalculateImage img n page
            (NewThumbnailCalls v blob decode crop size dpi fuel (-r.n) (-r.page)).map
              (fun rest => (n, page) :: rest)
          else Option.some [(n, page)]
      else
        match decode options with
        | Option.none => Option.some [(n, page)]
        | Option.some img =>
          if (CheckResolution v (Option.some img) Option.none).err.isSome then
            Option.some [(n, page)]
          else if n > 1 ∨ page > 1 then
            let r := recalculateImage img n page
            (NewThumbnailCalls v blob decode crop size dpi fuel (-r.n) (-r.page)).map
              (fun rest => (n, page) :: rest)
          else Option.some [(n, page)]
    else Option.some [(n, page)]

/-- The property that one `NewThumbnail` request settles with at most one
reload retry: the call list exists within a recursion budget of 2, and is
either the single original call, or the original call followed by exactly
one retry whose indices are the negated output of `recalculateImage` on the
decoded image — and that retry can no longer satisfy the recalculation
condition `n > 1 ∨ page > 1`. -/
def SingleRetryRun (v : Processor) (blob : Option Blob)
    (decode : LoadOptions → Option VImage) (crop : Interesting) (size : Size)
    (dpi : Int) (n page : Int) : Prop :=
  ∃ calls : List (Int × Int),
    NewThumbnailCalls v blob decode crop size dpi 2 n page = Option.some calls ∧
    (calls = [(n, page)] ∨
      ∃ img : VImage,
        decode (applyMultiPageOptions
          { dpi := if dpi > 0 then dpi else 0, unlimited := v.unlimited } n page) =
            Option.some img ∧
        isMultiPage blob n page = true ∧ (1 < n ∨ 1 < page) ∧
        calls = [(n, page),
          (-(recalculateImage img n page).n, -(recalculateImage img n page).page)] ∧
        ¬(1 < -(recalculateImage img n page).n ∨
            1 < -(recalculateImage img n page).page))

/-- A GIF blob that supports animation (concrete instantiation input). -/
def gifBlob : Blob := ⟨BlobType.gif, true⟩

/-- A decode yielding a 3-page 100×100 animated image whatever the options
(concrete instantiation input). -/
def decode3 : LoadOptions → Option VImage :=
  fun _ => Option.some ⟨100, 300, 100, 3, 1⟩

/-! ## Helper lemmas -/

/-- `truncQ` agrees with the floor on nonnegative rationals. -/
theorem truncQ_eq_floor {q : ℚ} (h : 0 ≤ q) : truncQ q = ⌊q⌋ := by
  unfold truncQ
  rw [Rat.floor_def]
  exact Int.tdiv_eq_ediv (Rat.num_nonneg.mpr h) (Int.natCast_nonneg _)

/-- A rational clamped into `[0, b]` truncates into `[0, b]`. -/
theorem truncQ_mem {q : ℚ} {b : Int} (h0 : 0 ≤ q) (hb : q ≤ (b : ℚ)) :
    0 ≤ truncQ q ∧ truncQ q ≤ b := by
  rw [truncQ_eq_floor h0]
  refine ⟨Int.floor_nonneg.mpr h0, ?_⟩
  calc ⌊q⌋ ≤ ⌊(b : ℚ)⌋ := Int.floor_le_floor hb
    _ = b := Int.floor_intCast b

/-- `recalculateImage` preserves nonnegativity of the indices. -/
theorem recalculateImage_nonneg {img : VImage} {n page : Int}
    (hn : 0 ≤ n) (hp : 0 ≤ page) (hpg : 0 ≤ img.pages) :
    0 ≤ (recalculateImage img n page).n ∧ 0 ≤ (recalculateImage img n page).page := by
  by_cases h1 : page > 1 ∧ page > img.pages
  · unfold recalculateImage
    rw [if_pos h1]
    exact ⟨hn, hpg⟩
  · by_cases h2 : n > 1 ∧ n > img.pages
    · unfold recalculateImage
      rw [if_neg h1, if_pos h2]
      exact ⟨hpg, hp⟩
    · unfold recalculateImage
      rw [if_neg h1, if_neg h2]
      exact ⟨hn, hp⟩

/-- A pipeline invocation whose indices cannot satisfy the recalculation
condition returns its own call entry without recursing, whatever the blob,
the decode outcome, and the crop/size branch taken. -/
theorem newThumbnailCalls_noRetry (v : Processor) (blob : Option Blob)
    (decode : LoadOptions → Option VImage) (crop : Interesting) (size : Size)
    (dpi : Int) (fuel : Nat) {n page : Int} (h : ¬(n > 1 ∨ page > 1)) :
    NewThumbnailCalls v blob decode crop size dpi (fuel + 1) n page =
      Option.some [(n, page)] := by
  show NewThumbnailCalls v blob decode crop size dpi (Nat.succ fuel) n page = _
  rw [NewThumbnailCalls]
  by_cases hm : isMultiPage blob n page = true
  · by_cases hb : crop = Interesting.none ∨ size = Size.force
    · cases hd : decode (applyMultiPageOptions
          { dpi := if dpi > 0 then dpi else 0, unlimited := v.unlimited } n page) with
      | none => simp [hm, hb, hd]
      | some img => simp [hm, hb, hd, h]
    · cases hd : decode (applyMultiPageOptions
          { dpi := if dpi > 0 then dpi else 0, unlimited := v.unlimited } n page) with
      | none => simp [hm, hb, hd]
      | some img =>
        by_cases hc : (CheckResolution v (Option.some img) Option.none).err.isSome = true
        · simp [hm, hb, hd, hc]
        · simp [hm, hb, hd, hc, h]
  · simp [hm]

/-! ## Claim theorems -/

/-- C2: with `Unlimited` unset, `CheckResolution` fails with
`ErrMaxResolutionExceeded` (closing the image) exactly when
`width > MaxWidth`, or `pageHeight > MaxHeight`, or
`width * height > MaxResolution`; an image hitting `MaxResolution` exactly
(within the other limits) passes unchanged; with `Unlimited` set everything
passes unchanged. -/
theorem checkResolution_limits (v : Processor) (i : VImage) :
    (v.unlimited = false →
      (CheckResolution v (Option.some i) Option.none =
          ⟨Option.none, Option.some (GoError.imagorError ImagorError.maxResolutionExceeded),
            true⟩
        ↔ (v.maxWidth < i.width ∨ v.maxHeight < i.pageHeight ∨
            v.maxResolution < i.width * i.height)))
    ∧ (v.unlimited = false → i.width ≤ v.maxWidth → i.pageHeight ≤ v.maxHeight →
        i.width * i.height = v.maxResolution →
        CheckResolution v (Option.some i) Option.none =
          ⟨Option.some i, Option.none, false⟩)
    ∧ (v.unlimited = true →
        CheckResolution v (Option.some i) Option.none =
          ⟨Option.some i, Option.none, false⟩) := by
  refine ⟨?_, ?_, ?_⟩
  · intro hu
    simp only [CheckResolution, hu, Bool.not_false, Bool.true_and]
    constructor
    · intro heq
      by_contra hno
      push_neg at hno
      rw [if_neg (by simp; omega)] at heq
      exact absurd (congrArg CheckResult.img heq) (by simp)
    · intro hyes
      rw [if_pos (by simp; omega)]
  · intro hu hw hh hr
    simp only [CheckResolution, hu, Bool.not_false, Bool.true_and]
    rw [if_neg (by simp; omega)]
  · intro hu
    simp [CheckResolution, hu]

/-- C2 witness: with the default limits, a 9000×9000 single-page image has
`width*height = 81000000 = MaxResolution` exactly and passes unchanged. -/
theorem checkResolution_limits_witness :
    CheckResolution {} (Option.some ⟨9000, 9000, 9000, 1, 1⟩) Option.none =
      ⟨Option.some ⟨9000, 9000, 9000, 1, 1⟩, Option.none, false⟩ :=
  (checkResolution_limits {} ⟨9000, 9000, 9000, 1, 1⟩).2.1 rfl (by decide) (by decide)
    (by decide)

/-- C7: with `SizeDown` and a source strictly smaller than the target in
both dimensions, `animatedThumbnailWithCrop` returns immediately: no resize
call, no extraction, nil error. -/
theorem sizeDown_noop (v : Processor) (thumb : ThumbPrim) (img : VImage)
    (w h : Int) (crop : Interesting) (size : Size) (hs : size = Size.down)
    (hw : img.width < w) (hh : img.pageHeight < h) :
    animatedThumbnailWithCrop v thumb img w h crop size = CropOutcome.unmodified := by
  unfold animatedThumbnailWithCrop
  rw [if_pos ⟨hs, hw, hh⟩]

/-- C7 witness: a 50×50 source with a 200×200 target under `SizeDown` is
returned unmodified. -/
theorem sizeDown_noop_witness :
    animatedThumbnailWithCrop {} fitThumb ⟨50, 50, 50, 1, 1⟩ 200 200
      Interesting.centre Size.down = CropOutcome.unmodified :=
  sizeDown_noop {} fitThumb ⟨50, 50, 50, 1, 1⟩ 200 200 Interesting.centre Size.down rfl
    (by decide) (by decide)

/-- C8 counterexample: the Generic wrap carries the *trimmed* message, not
the original one — a raw error whose message has surrounding whitespace is
wrapped as `NewError` of a different string. -/
theorem wrapErr_trim_cex :
    WrapErr (Option.some (GoError.raw " boom ".toList)) =
      ⟨Option.some (GoError.imagorError (ImagorError.newError "boom".toList 406)), true⟩
    ∧ "boom".toList ≠ " boom ".toList := by decide

/-- C8 (amended): for raw errors, `WrapErr` yields `ErrUnsupportedFormat`
exactly when the trimmed message starts with `VipsForeignLoad:` and ends
with `is not in a known format` (without a sentry report); every other raw
error is reported to sentry and wrapped as `NewError` of the *trimmed*
message with status 406. -/
theorem wrapErr_classification (m : List Char) :
    ((WrapErr (Option.some (GoError.raw m))).err =
        Option.some (GoError.imagorError ImagorError.unsupportedFormat) ↔
      ("VipsForeignLoad:".toList.isPrefixOf (trimSpace m) = true ∧
        "is not in a known format".toList.isSuffixOf (trimSpace m) = true))
    ∧ (¬("VipsForeignLoad:".toList.isPrefixOf (trimSpace m) = true ∧
          "is not in a known format".toList.isSuffixOf (trimSpace m) = true) →
        WrapErr (Option.some (GoError.raw m)) =
          ⟨Option.some (GoError.imagorError (ImagorError.newError (trimSpace m) 406)),
            true⟩)
    ∧ (("VipsForeignLoad:".toList.isPrefixOf (trimSpace m) = true ∧
        "is not in a known format".toList.isSuffixOf (trimSpace m) = true) →
        WrapErr (Option.some (GoError.raw m)) =
          ⟨Option.some (GoError.imagorError ImagorError.unsupportedFormat), false⟩) := by
  by_cases hc : ("VipsForeignLoad:".toList.isPrefixOf (trimSpace m) = true ∧
      "is not in a known format".toList.isSuffixOf (trimSpace m) = true)
  · have hb : ("VipsForeignLoad:".toList.isPrefixOf (trimSpace m) &&
        "is not in a known format".toList.isSuffixOf (trimSpace m)) = true := by
      rw [Bool.and_eq_true]
      exact hc
    refine ⟨?_, fun hno => absurd hc hno, fun _ => ?_⟩
    · exact iff_of_true (by simp only [WrapErr]; rw [if_pos hb]) hc
    · simp only [WrapErr]
      rw [if_pos hb]
  · have hb : ¬(("VipsForeignLoad:".toList.isPrefixOf (trimSpace m) &&
        "is not in a known format".toList.isSuffixOf (trimSpace m)) = true) := by
      rw [Bool.and_eq_true]
      exact hc
    refine ⟨?_, fun _ => ?_, fun hyes => absurd hyes hc⟩
    · refine iff_of_false ?_ hc
      simp only [WrapErr]
      rw [if_neg hb]
      simp
    · simp only [WrapErr]
      rw [if_neg hb]

/-- C8 witness: a libvips unknown-format message is classified as
`ErrUnsupportedFormat` with no sentry report. -/
theorem wrapErr_classification_witness :
    WrapErr (Option.some
        (GoError.raw "VipsForeignLoad: vipsforeignload is not in a known format".toList)) =
      ⟨Option.some (GoError.imagorError ImagorError.unsupportedFormat), false⟩ :=
  (wrapErr_classification
      "VipsForeignLoad: vipsforeignload is not in a known format".toList).2.2
    (by decide)

/-- C9: `recalculateImage` clamps at most one index, `page` first: when
`page > 1` exceeds the page count only `page` is clamped (`n` kept even if
it also exceeds); `n` is clamped only when the page branch does not apply;
otherwise both pass through. -/
theorem recalculate_priority (img : VImage) (n page : Int) :
    (1 < page → img.pages < page →
      recalculateImage img n page = ⟨n, img.pages, true⟩)
    ∧ (¬(1 < page ∧ img.pages < page) → 1 < n → img.pages < n →
      recalculateImage img n page = ⟨img.pages, page, true⟩)
    ∧ (¬(1 < page ∧ img.pages < page) → ¬(1 < n ∧ img.pages < n) →
      recalculateImage img n page = ⟨n, page, true⟩) := by
  refine ⟨fun h1 h2 => ?_, fun hno h1 h2 => ?_, fun hno hno2 => ?_⟩
  · unfold recalculateImage
    rw [if_pos ⟨h1, h2⟩]
  · unfold recalculateImage
    rw [if_neg (by omega), if_pos ⟨h1, h2⟩]
  · unfold recalculateImage
    rw [if_neg (by omega), if_neg (by omega)]

/-- C9 witness: on a 3-page image, requesting `n = 7, page = 5` clamps only
`page` (to 3) although `n = 7` also exceeds the page count. -/
theorem recalculate_priority_witness :
    recalculateImage ⟨100, 300, 100, 3, 1⟩ 7 5 = ⟨7, 3, true⟩ :=
  (recalculate_priority ⟨100, 300, 100, 3, 1⟩ 7 5).1 (by decide) (by decide)

/-- C10: `WrapErr` is nil-preserving, returns classified imagor errors
unchanged, and is idempotent on the returned error value. -/
theorem wrapErr_idempotent :
    (WrapErr Option.none).err = Option.none
    ∧ (∀ e : ImagorError,
        WrapErr (Option.some (GoError.imagorError e)) =
          ⟨Option.some (GoError.imagorError e), false⟩)
    ∧ (∀ x : Option GoError, (WrapErr (WrapErr x).err).err = (WrapErr x).err) := by
  refine ⟨rfl, fun e => rfl, fun x => ?_⟩
  match x with
  | Option.none => rfl
  | Option.some (GoError.imagorError e) => rfl
  | Option.some (GoError.raw m) =>
    by_cases hc : ("VipsForeignLoad:".toList.isPrefixOf (trimSpace m) = true ∧
        "is not in a known format".toList.isSuffixOf (trimSpace m) = true)
    · have h1 : WrapErr (Option.some (GoError.raw m)) =
          ⟨Option.some (GoError.imagorError ImagorError.unsupportedFormat), false⟩ := by
        simp only [WrapErr]
        rw [if_pos (show _ by rw [Bool.and_eq_true]; exact hc)]
      rw [h1]
      rfl
    · have h1 : WrapErr (Option.some (GoError.raw m)) =
          ⟨Option.some (GoError.imagorError (ImagorError.newError (trimSpace m) 406)),
            true⟩ := by
        simp only [WrapErr]
        rw [if_neg (show _ by rw [Bool.and_eq_true]; exact hc)]
      rw [h1]
      rfl

/-- C1 counterexample: the crop step of `animatedThumbnailWithCrop` does
not clamp.  A 50×300 source with target 200×100 under `SizeDown` (the
resize leaves it at 50×300, smaller than the target width) gets Centre
extraction left `(50-200)/2 = -75 < 0`. -/
theorem animatedCrop_unclamped_cex :
    animatedThumbnailWithCrop {} fitThumb ⟨50, 300, 300, 1, 1⟩ 200 100
        Interesting.centre Size.down =
      CropOutcome.extracted
        ⟨200, { height := 9999, crop := Interesting.none, size := Size.down }⟩
        ⟨50, 300, 300, 1, 1⟩ (-75) 100 200 100
    ∧ ¬((0 : Int) ≤ -75) := by
  refine ⟨?_, by decide⟩
  norm_num [animatedThumbnailWithCrop, fitThumb]
  decide

/-- C1 (amended): the crop step computes HighAnchor left/top as
`width−w`/`pageHeight−h` and Centre/Attention as their halves (Go truncated
division), with no clamping; whenever the resized image is at least as
large as the target in both dimensions these lie within
`[0, width−w] × [0, pageHeight−h]`, but they can be negative when the
resized image is smaller than the target in a dimension. -/
theorem animatedCrop_rect (v : Processor) (thumb : ThumbPrim) (img : VImage)
    (w h : Int) (crop : Interesting) (size : Size)
    (call : ThumbCall) (img2 : VImage) (left top w2 h2 : Int)
    (hrun : animatedThumbnailWithCrop v thumb img w h crop size =
      CropOutcome.extracted call img2 left top w2 h2) :
    (crop = Interesting.high → left = img2.width - w ∧ top = img2.pageHeight - h)
    ∧ ((crop = Interesting.centre ∨ crop = Interesting.attention) →
        left = Int.tdiv (img2.width - w) 2 ∧ top = Int.tdiv (img2.pageHeight - h) 2)
    ∧ ((crop = Interesting.high ∨ crop = Interesting.centre ∨
          crop = Interesting.attention) →
        w ≤ img2.width → h ≤ img2.pageHeight →
        0 ≤ left ∧ left ≤ img2.width - w ∧ 0 ≤ top ∧ top ≤ img2.pageHeight - h) := by
  unfold animatedThumbnailWithCrop at hrun
  by_cases hnoop : size = Size.down ∧ img.width < w ∧ img.pageHeight < h
  · rw [if_pos hnoop] at hrun
    exact (CropOutcome.noConfusion hrun)
  · rw [if_neg hnoop] at hrun
    dsimp only at hrun
    injection hrun with hcall himg2 hleft htop hw hh
    subst himg2
    subst hleft
    subst htop
    refine ⟨fun hc => ?_, fun hc => ?_, fun hc hw2 hh2 => ?_⟩
    · subst hc
      simp
    · rcases hc with hc | hc <;> subst hc <;> simp
    · have hediv : ∀ a : Int, 0 ≤ a → 0 ≤ Int.tdiv a 2 ∧ Int.tdiv a 2 ≤ a := by
        intro a ha
        rw [Int.tdiv_eq_ediv ha (by decide)]
        omega
      rcases hc with hc | hc | hc
      · subst hc
        simp only [reduceIte]
        exact ⟨Int.sub_nonneg.mpr hw2, le_refl _, Int.sub_nonneg.mpr hh2, le_refl _⟩
      · subst hc
        simp only [reduceIte]
        exact ⟨(hediv _ (Int.sub_nonneg.mpr hw2)).1, (hediv _ (Int.sub_nonneg.mpr hw2)).2,
          (hediv _ (Int.sub_nonneg.mpr hh2)).1, (hediv _ (Int.sub_nonneg.mpr hh2)).2⟩
      · subst hc
        simp only [reduceIte]
        exact ⟨(hediv _ (Int.sub_nonneg.mpr hw2)).1, (hediv _ (Int.sub_nonneg.mpr hw2)).2,
          (hediv _ (Int.sub_nonneg.mpr hh2)).1, (hediv _ (Int.sub_nonneg.mpr hh2)).2⟩

/-- C1 witness (amended claim): a 300×300 source with a 100×100 centre-crop
target resizes to 100×100 and the computed rectangle (0,0) lies in
bounds. -/
theorem animatedCrop_rect_witness :
    0 ≤ (0 : Int) ∧ (0 : Int) ≤ (VImage.mk 100 100 100 1 1).width - 100 ∧
      0 ≤ (0 : Int) ∧ (0 : Int) ≤ (VImage.mk 100 100 100 1 1).pageHeight - 100 := by
  refine (animatedCrop_rect {} fitThumb ⟨300, 300, 300, 1, 1⟩ 100 100
      Interesting.centre Size.both
      ⟨9999, { height := 100, crop := Interesting.none, size := Size.both }⟩
      ⟨100, 100, 100, 1, 1⟩ 0 0 100 100 ?_).2.2 (Or.inr (Or.inl rfl)) (by decide)
      (by decide)
  norm_num [animatedThumbnailWithCrop, fitThumb]

/-- C5 counterexample: with orientation code 5 the focal path's selection
rule uses the swapped extents, not `sourceWidth/sourcePageHeight`: on a
200×100 source with target 50×50 it scales by width (thumbnail width 50,
height capped at MaxHeight) although `50/50 > 200/100` is false (the claim
predicts the scale-by-height call of width MaxWidth = 9999). -/
theorem scale_selection_focal_cex :
    (FocalThumbnail {} fitThumb ⟨200, 100, 100, 1, 5⟩ 50 50 0 0).call =
      ⟨50, { height := 9999, crop := Interesting.none }⟩
    ∧ ¬((50 : ℚ) / (50 : ℚ) > (200 : ℚ) / (100 : ℚ))
    ∧ (50 : Int) ≠ 9999 := by
  refine ⟨?_, by norm_num, by decide⟩
  norm_num [FocalThumbnail, fitThumb]

/-- C5 (amended): the resize step scales by width (thumbnail call of width
`w` with height capped at MaxHeight, crop none) exactly when
`w/h > width/pageHeight`, else by height (width capped at MaxWidth), in
both the animated-crop path (on raw extents, with the request's size
forwarded) and the focal path (on display-oriented extents, swapped when
the orientation code exceeds 4). -/
theorem scale_selection_rule (v : Processor) (thumb : ThumbPrim) (img : VImage)
    (w h : Int) (crop : Interesting) (size : Size) (fx fy : ℚ)
    (hno : ¬(size = Size.down ∧ img.width < w ∧ img.pageHeight < h)) :
    (∃ img2 left top,
      animatedThumbnailWithCrop v thumb img w h crop size =
        CropOutcome.extracted
          (if (w : ℚ) / (h : ℚ) > (img.width : ℚ) / (img.pageHeight : ℚ) then
            ⟨w, { height := v.maxHeight, crop := Interesting.none, size := size }⟩
          else ⟨v.maxWidth, { height := h, crop := Interesting.none, size := size }⟩)
          img2 left top w h)
    ∧ ((FocalThumbnail v thumb img w h fx fy).call =
        if (w : ℚ) / (h : ℚ) >
            (if img.orientation > 4 then (img.pageHeight : ℚ) else (img.width : ℚ)) /
              (if img.orientation > 4 then (img.width : ℚ) else (img.pageHeight : ℚ)) then
          ⟨w, { height := v.maxHeight, crop := Interesting.none }⟩
        else ⟨v.maxWidth, { height := h, crop := Interesting.none }⟩) := by
  constructor
  · unfold animatedThumbnailWithCrop
    rw [if_neg hno]
    exact ⟨_, _, _, rfl⟩
  · rfl

/-- C5 witness (amended claim): a square 300×300 source with a square
100×100 target takes the scale-by-height branch (`1 > 1` is false) in the
focal path. -/
theorem scale_selection_rule_witness :
    (FocalThumbnail {} fitThumb ⟨300, 300, 300, 1, 1⟩ 100 100 0 0).call =
      ⟨9999, { height := 100, crop := Interesting.none }⟩ := by
  have hs := (scale_selection_rule {} fitThumb ⟨300, 300, 300, 1, 1⟩ 100 100
      Interesting.centre Size.both 0 0 (by decide)).2
  rw [hs]
  norm_num

/-- C6: `FocalThumbnail` compares aspect against swapped extents exactly
for orientation codes > 4; the extraction rectangle is
`left = width*fx - w/2`, `top = pageHeight*fy - h/2` of the resized image
clamped by `max 0 (min · (dim - target))` and truncated, staying inside
`[0, width−w] × [0, pageHeight−h]` whenever the resized image covers the
target; the extraction is page-aware (`ExtractAreaMultiPage`, preserving
the page count); and two images with identical raw dimensions but
orientations 1 and 5 get different rectangles. -/
theorem focal_orientation_clamp (v : Processor) (thumb : ThumbPrim) (img : VImage)
    (w h : Int) (fx fy : ℚ) :
    let F := FocalThumbnail v thumb img w h fx fy
    ((4 : Int) < img.orientation →
      F.call =
        (if (w : ℚ) / (h : ℚ) > (img.pageHeight : ℚ) / (img.width : ℚ) then
          ⟨w, { height := v.maxHeight, crop := Interesting.none }⟩
        else ⟨v.maxWidth, { height := h, crop := Interesting.none }⟩))
    ∧ (img.orientation ≤ 4 →
      F.call =
        (if (w : ℚ) / (h : ℚ) > (img.width : ℚ) / (img.pageHeight : ℚ) then
          ⟨w, { height := v.maxHeight, crop := Interesting.none }⟩
        else ⟨v.maxWidth, { height := h, crop := Interesting.none }⟩))
    ∧ F.left = truncQ (max 0 (min ((F.resized.width : ℚ) * fx - (w : ℚ) / 2)
        ((F.resized.width : ℚ) - (w : ℚ))))
    ∧ F.top = truncQ (max 0 (min ((F.resized.pageHeight : ℚ) * fy - (h : ℚ) / 2)
        ((F.resized.pageHeight : ℚ) - (h : ℚ))))
    ∧ (w ≤ F.resized.width → 0 ≤ F.left ∧ F.left ≤ F.resized.width - w)
    ∧ (h ≤ F.resized.pageHeight → 0 ≤ F.top ∧ F.top ≤ F.resized.pageHeight - h)
    ∧ F.result = ExtractAreaMultiPage F.resized F.left F.top w h
    ∧ F.result.pages = F.resized.pages
    ∧ F.result.pageHeight = h
    ∧ (FocalThumbnail {} fitThumb ⟨200, 100, 100, 1, 1⟩ 50 50 1 0).left = 50
    ∧ (FocalThumbnail {} fitThumb ⟨200, 100, 100, 1, 5⟩ 50 50 1 0).left = 0
    ∧ (50 : Int) ≠ 0 := by
  intro F
  refine ⟨fun horient => ?_, fun horient => ?_, rfl, rfl, fun hw => ?_, fun hh => ?_,
    rfl, rfl, rfl, ?_, ?_, by decide⟩
  · show (FocalThumbnail v thumb img w h fx fy).call = _
    unfold FocalThumbnail
    rw [if_pos horient, if_pos horient]
  · show (FocalThumbnail v thumb img w h fx fy).call = _
    unfold FocalThumbnail
    rw [if_neg (by omega), if_neg (by omega)]
  · have hcast : ((F.resized.width : ℚ) - (w : ℚ)) = ((F.resized.width - w : Int) : ℚ) := by
      push_cast
      ring
    refine truncQ_mem (le_max_left _ _) ?_
    rw [← hcast]
    refine max_le ?_ (min_le_right _ _)
    have : (0 : ℚ) ≤ (F.resized.width : ℚ) - (w : ℚ) := by
      rw [hcast]
      exact_mod_cast Int.sub_nonneg.mpr hw
    exact this
  · have hcast : ((F.resized.pageHeight : ℚ) - (h : ℚ)) =
        ((F.resized.pageHeight - h : Int) : ℚ) := by
      push_cast
      ring
    refine truncQ_mem (le_max_left _ _) ?_
    rw [← hcast]
    refine max_le ?_ (min_le_right _ _)
    have : (0 : ℚ) ≤ (F.resized.pageHeight : ℚ) - (h : ℚ) := by
      rw [hcast]
      exact_mod_cast Int.sub_nonneg.mpr hh
    exact this
  · norm_num [FocalThumbnail, fitThumb, truncQ]
  · norm_num [FocalThumbnail, fitThumb, truncQ]

/-- C6 witness: at the orientation-1 concrete input the resized width is
100 ≥ 50 and the clamped left lies within `[0, 50]`. -/
theorem focal_orientation_clamp_witness :
    0 ≤ (FocalThumbnail {} fitThumb ⟨200, 100, 100, 1, 1⟩ 50 50 1 0).left ∧
      (FocalThumbnail {} fitThumb ⟨200, 100, 100, 1, 1⟩ 50 50 1 0).left ≤
        (FocalThumbnail {} fitThumb ⟨200, 100, 100, 1, 1⟩ 50 50 1 0).resized.width - 50 := by
  refine (focal_orientation_clamp {} fitThumb ⟨200, 100, 100, 1, 1⟩ 50 50 1 0).2.2.2.2.1 ?_
  norm_num [FocalThumbnail, fitThumb]

/-- C3 counterexample: the single-retry bound fails off the nonnegative
request range.  For `(n, page) = (3, -3)` on a 3-page animated source the
recalculation condition holds, `recalculateImage` returns the pair
unchanged, the retried indices are `(-3, 3)` which satisfy the
recalculation condition again, and the pipeline does not settle within six
invocations (five retries). -/
theorem newThumbnail_recursion_unbounded_cex :
    NewThumbnailCalls {} (Option.some gifBlob) decode3 Interesting.none Size.both 0 6 3
        (-3) = Option.none
    ∧ isMultiPage (Option.some gifBlob) 3 (-3) = true
    ∧ ((3 : Int) > 1 ∨ ((-3 : Int) > 1))
    ∧ (-(recalculateImage ⟨100, 300, 100, 3, 1⟩ 3 (-3)).n,
        -(recalculateImage ⟨100, 300, 100, 3, 1⟩ 3 (-3)).page) = ((-3 : Int), (3 : Int))
    ∧ (isMultiPage (Option.some gifBlob) (-3) 3 = true ∧
        (((-3 : Int) > 1) ∨ ((3 : Int) > 1))) := by
  decide

/-- C3 (amended): for every nonnegative requested `(n, page)` (and any
blob, decode outcome with a nonnegative page count, crop, size, dpi), the
pipeline settles within a recursion budget of 2: it either never reloads,
or reloads exactly once with the negated recalculated indices, and that
retry can never satisfy the recalculation condition again. -/
theorem newThumbnail_single_retry (v : Processor) (blob : Option Blob)
    (decode : LoadOptions → Option VImage) (crop : Interesting) (size : Size)
    (dpi : Int) (n page : Int) (hn : 0 ≤ n) (hp : 0 ≤ page)
    (hdec : ∀ o i, decode o = Option.some i → 0 ≤ i.pages) :
    SingleRetryRun v blob decode crop size dpi n page := by
  unfold SingleRetryRun
  by_cases ht : n > 1 ∨ page > 1
  case neg =>
    exact ⟨[(n, page)], newThumbnailCalls_noRetry v blob decode crop size dpi 1 ht,
      Or.inl rfl⟩
  case pos =>
    by_cases hm : isMultiPage blob n page = true
    case neg =>
      refine ⟨[(n, page)], ?_, Or.inl rfl⟩
      show NewThumbnailCalls v blob decode crop size dpi (Nat.succ 1) n page = _
      rw [NewThumbnailCalls]
      simp [hm]
    case pos =>
      cases hd : decode (applyMultiPageOptions
          { dpi := if dpi > 0 then dpi else 0, unlimited := v.unlimited } n page) with
      | none =>
        refine ⟨[(n, page)], ?_, Or.inl rfl⟩
        show NewThumbnailCalls v blob decode crop size dpi (Nat.succ 1) n page = _
        rw [NewThumbnailCalls]
        by_cases hb : crop = Interesting.none ∨ size = Size.force
        · simp [hm, hb, hd]
        · simp [hm, hb, hd]
      | some img =>
        have hpg := hdec _ _ hd
        have hnn := recalculateImage_nonneg hn hp hpg
        have hnt : ¬(-(recalculateImage img n page).n > 1 ∨
            -(recalculateImage img n page).page > 1) := by omega
        have hinner : NewThumbnailCalls v blob decode crop size dpi 1
            (-(recalculateImage img n page).n) (-(recalculateImage img n page).page) =
            Option.some [(-(recalculateImage img n page).n,
              -(recalculateImage img n page).page)] :=
          newThumbnailCalls_noRetry v blob decode crop size dpi 0 hnt
        by_cases hb : crop = Interesting.none ∨ size = Size.force
        · refine ⟨[(n, page), (-(recalculateImage img n page).n,
              -(recalculateImage img n page).page)], ?_,
            Or.inr ⟨img, rfl, hm, ht, rfl, hnt⟩⟩
          show NewThumbnailCalls v blob decode crop size dpi (Nat.succ 1) n page = _
          rw [NewThumbnailCalls]
          simp [hm, hb, hd, ht, hinner]
        · by_cases hcr : (CheckResolution v (Option.some img) Option.none).err.isSome = true
          · refine ⟨[(n, page)], ?_, Or.inl rfl⟩
            show NewThumbnailCalls v blob decode crop size dpi (Nat.succ 1) n page = _
            rw [NewThumbnailCalls]
            simp [hm, hb, hd, hcr]
          · refine ⟨[(n, page), (-(recalculateImage img n page).n,
                -(recalculateImage img n page).page)], ?_,
              Or.inr ⟨img, rfl, hm, ht, rfl, hnt⟩⟩
            show NewThumbnailCalls v blob decode crop size dpi (Nat.succ 1) n page = _
            rw [NewThumbnailCalls]
            simp [hm, hb, hd, hcr, ht, hinner]

/-- C3 witness: the request `(n, page) = (1, 5)` on the 3-page animated
source settles as a single-retry run. -/
theorem newThumbnail_single_retry_witness :
    SingleRetryRun {} (Option.some gifBlob) decode3 Interesting.none Size.both 0 1 5 := by
  refine newThumbnail_single_retry {} (Option.some gifBlob) decode3 Interesting.none
    Size.both 0 1 5 (by decide) (by decide) ?_
  intro o i h
  obtain rfl : VImage.mk 100 300 100 3 1 = i := Option.some.inj h
  decide

/-- C4 counterexample: requesting `page = 2` (within range) on a 3-frame
source still performs a reload retry: the pipeline call list is
`[(1, 2), (-1, -2)]`, not the single no-retry call. -/
theorem newThumbnail_inrange_retry_cex :
    NewThumbnailCalls {} (Option.some gifBlob) decode3 Interesting.none Size.both 0 4 1 2 =
      Option.some [(1, 2), (-1, -2)]
    ∧ (Option.some [((1 : Int), (2 : Int)), (-1, -2)] ≠
        Option.some [((1 : Int), (2 : Int))]) := by
  decide

/-- C4 (amended): `recalculateImage` reads the frame count from the decoded
handle and closes it, clamping a requested `page > 1` exceeding the count
down to the count; requesting `page = 5` on a 3-frame source yields a
clamped retry with page 3 (retried as `(-1, -3)`), while the in-range
request `page = 2` also yields one reload retry but with the page index
passed through unclamped (retried as `(-1, -2)`). -/
theorem recalculate_clamp_retry (img : VImage) (n page : Int) :
    ((recalculateImage img n page).imgClosed = true)
    ∧ (1 < page → img.pages < page →
        recalculateImage img n page = ⟨n, img.pages, true⟩)
    ∧ NewThumbnailCalls {} (Option.some gifBlob) decode3 Interesting.none Size.both 0 2 1
        5 = Option.some [(1, 5), (-1, -3)]
    ∧ NewThumbnailCalls {} (Option.some gifBlob) decode3 Interesting.none Size.both 0 4 1
        2 = Option.some [(1, 2), (-1, -2)] := by
  refine ⟨?_, fun h1 h2 => ?_, by decide, by decide⟩
  · by_cases hc1 : page > 1 ∧ page > img.pages
    · unfold recalculateImage
      rw [if_pos hc1]
    · by_cases hc2 : n > 1 ∧ n > img.pages
      · unfold recalculateImage
        rw [if_neg hc1, if_pos hc2]
      · unfold recalculateImage
        rw [if_neg hc1, if_neg hc2]
  · unfold recalculateImage
    rw [if_pos ⟨h1, h2⟩]

/-- C4 witness: on a 3-page image, `page = 5` is clamped to 3 (with `n`
passed through). -/
theorem recalculate_clamp_retry_witness :
    recalculateImage ⟨100, 300, 100, 3, 1⟩ 9 5 = ⟨9, 3, true⟩ :=
  (recalculate_clamp_retry ⟨100, 300, 100, 3, 1⟩ 9 5).2.1 (by decide) (by decide)

end Vipsprocessor
